import Mathlib

/-!
Shallow embedding of the time-zone-scheduler action service
(`src/unnamed/part_000`, tables in `src/db/tables.ts`).

Modelling conventions:
* Timestamps (`Date` values) are `Nat` milliseconds since the epoch; each
  `new Date()` call site in a handler becomes an explicit `Nat` parameter.
* `crypto.randomUUID()` becomes an explicit `newId : String` parameter;
  freshness of the generated id is a hypothesis where a theorem needs it.
* JavaScript numbers carrying the zod `.int()` check (`score`) are `ℚ`,
  so that the integrality check is a real check; `durationMinutes` is `Int`.
* The store (`astro:db` on drizzle-orm) is three in-memory lists; `select`
  with a `where` is `List.filter`, `offset`/`limit` are `drop`/`take`,
  `count` is `length`, `update ... set ... where` maps the matching rows,
  `delete ... where` filters them out.  Per drizzle-orm semantics, an
  `update().set()` entry whose value is `undefined` is dropped from the
  generated SET clause, so such a column keeps its stored value
  (`setOrKeep` below); an `insert` value of `undefined` stores NULL for an
  optional column.
* Each handler is a state transformer `DB → ... → Except ActionError α × DB`;
  a thrown `ActionError` leaves the store untouched.  zod input parsing
  runs before the handler (`...Action` wrappers) and rejects with a
  `BAD_REQUEST` error, as astro actions do.
-/

namespace TZScheduler

/-- Row of the `Schedules` table (`src/db/tables.ts`). -/
structure Schedule where
  id : String
  ownerUserId : String
  name : String
  description : Option String
  baseTimeZone : Option String
  durationMinutes : Option Int
  createdAt : Nat
  updatedAt : Nat
  deriving Repr, DecidableEq

/-- Row of the `ScheduleParticipants` table. -/
structure Participant where
  id : String
  scheduleId : String
  name : String
  timeZone : String
  availabilityJson : Option String
  createdAt : Nat
  deriving Repr, DecidableEq

/-- Row of the `ScheduleSuggestions` table. -/
structure Suggestion where
  id : String
  scheduleId : String
  suggestedStartUtc : Nat
  suggestedEndUtc : Nat
  participantsJson : Option String
  score : Option ℚ
  notes : Option String
  createdAt : Nat
  deriving Repr, DecidableEq

/-- The whole store: the three tables, each an ordered list of rows. -/
structure DB where
  schedules : List Schedule
  participants : List Participant
  suggestions : List Suggestion
  deriving Repr, DecidableEq

/-- Error codes the service surfaces (`ActionError.code`); `BAD_REQUEST`
is what astro actions use for zod input-validation failures. -/
inductive ErrCode where
  | UNAUTHORIZED
  | NOT_FOUND
  | BAD_REQUEST
  deriving Repr, DecidableEq

/-- `ActionError`: a code plus a human-readable message. -/
structure ActionError where
  code : ErrCode
  message : String
  deriving Repr, DecidableEq

/-- Request context: `context.locals.user`, if a session is present. -/
structure Ctx where
  user : Option String
  deriving Repr, DecidableEq

/-- `requireUser` (lines 12–24): the caller identity, or `UNAUTHORIZED`. -/
def requireUser (ctx : Ctx) : Except ActionError String :=
  match ctx.user with
  | some u => Except.ok u
  | none =>
      Except.error ⟨ErrCode.UNAUTHORIZED,
        "You must be signed in to perform this action."⟩

/-- `getOwnedSchedule` (lines 26–42): point lookup filtered by id AND
owner; the same `NOT_FOUND` error whether the id is absent or the row is
owned by someone else. -/
def getOwnedSchedule (db : DB) (scheduleId userId : String) :
    Except ActionError Schedule :=
  match (db.schedules.filter fun s =>
      s.id == scheduleId && s.ownerUserId == userId).head? with
  | some s => Except.ok s
  | none => Except.error ⟨ErrCode.NOT_FOUND, "Schedule not found."⟩

/-- The per-row effect of `touchScheduleUpdatedAt`: rows matching the id
get `updatedAt := now`, all other rows and columns are untouched. -/
def touchRow (scheduleId : String) (now : Nat) (s : Schedule) : Schedule :=
  if s.id == scheduleId then { s with updatedAt := now } else s

/-- `touchScheduleUpdatedAt` (lines 44–49): `update Schedules set
updatedAt := now where id = scheduleId`, with no owner filter. -/
def touchScheduleUpdatedAt (db : DB) (scheduleId : String) (now : Nat) :
    DB :=
  { db with schedules := db.schedules.map (touchRow scheduleId now) }

/-- drizzle-orm `update().set()` drops entries whose value is
`undefined`, so an omitted optional input column keeps its stored value. -/
def setOrKeep {α : Type} (newVal old : Option α) : Option α :=
  match newVal with
  | some v => some v
  | none => old

/-- JavaScript truthiness of an optional string (`if (input.id)`):
`undefined` and the empty string are falsy. -/
def idTruthy : Option String → Bool
  | some s => s.length != 0
  | none => false

/-- zod `z.string().min(1)`. -/
def nonemptyStr (s : String) : Bool :=
  s.length != 0

/-- zod `z.string().min(1).optional()`: absent, or non-empty. -/
def optNonempty : Option String → Bool
  | some s => nonemptyStr s
  | none => true

/-- zod `z.number().int().positive().optional()`. -/
def optPosInt : Option Int → Bool
  | some d => decide (0 < d)
  | none => true

/-- zod `z.number().int().min(0).max(100).optional()` for `score`. -/
def validScore : Option ℚ → Bool
  | some s => decide (s.den = 1) && decide (0 ≤ s) && decide (s ≤ 100)
  | none => true

/-- Input of `createSchedule` (lines 53–58). -/
structure CreateScheduleInput where
  name : String
  description : Option String
  baseTimeZone : Option String
  durationMinutes : Option Int
  deriving Repr, DecidableEq

def validCreateScheduleInput (i : CreateScheduleInput) : Bool :=
  nonemptyStr i.name && optNonempty i.baseTimeZone && optPosInt i.durationMinutes

/-- `createSchedule` handler (lines 59–80). -/
def createSchedule (db : DB) (ctx : Ctx) (input : CreateScheduleInput)
    (newId : String) (now : Nat) : Except ActionError Schedule × DB :=
  match requireUser ctx with
  | Except.error e => (Except.error e, db)
  | Except.ok user =>
      let schedule : Schedule :=
        { id := newId
          ownerUserId := user
          name := input.name
          description := input.description
          baseTimeZone := input.baseTimeZone
          durationMinutes := input.durationMinutes
          createdAt := now
          updatedAt := now }
      (Except.ok schedule, { db with schedules := db.schedules ++ [schedule] })

def createScheduleAction (db : DB) (ctx : Ctx) (input : CreateScheduleInput)
    (newId : String) (now : Nat) : Except ActionError Schedule × DB :=
  if validCreateScheduleInput input then createSchedule db ctx input newId now
  else (Except.error ⟨ErrCode.BAD_REQUEST, "Failed to validate: invalid input."⟩, db)

/-- Input of `updateSchedule` (lines 84–102). -/
structure UpdateScheduleInput where
  id : String
  name : Option String
  description : Option String
  baseTimeZone : Option String
  durationMinutes : Option Int
  deriving Repr, DecidableEq

/-- zod schema of `updateSchedule`, the `.refine` (at least one field) included. -/
def validUpdateScheduleInput (i : UpdateScheduleInput) : Bool :=
  nonemptyStr i.id && optNonempty i.name && optNonempty i.baseTimeZone &&
    optPosInt i.durationMinutes &&
    (i.name.isSome || i.description.isSome || i.baseTimeZone.isSome ||
      i.durationMinutes.isSome)

/-- The `updateData` record of `updateSchedule` (lines 107–115) applied to a
row: `updatedAt := now`, then each provided field. -/
def applyScheduleUpdate (i : UpdateScheduleInput) (now : Nat) (s : Schedule) :
    Schedule :=
  let s := { s with updatedAt := now }
  let s := match i.name with | some n => { s with name := n } | none => s
  let s := match i.description with
    | some d => { s with description := some d } | none => s
  let s := match i.baseTimeZone with
    | some b => { s with baseTimeZone := some b } | none => s
  let s := match i.durationMinutes with
    | some m => { s with durationMinutes := some m } | none => s
  s

/-- `updateSchedule` handler (lines 103–131): ownership guard, write
filtered again by id+owner, then re-read (`updated[0]`, hence an
`Option`). -/
def updateSchedule (db : DB) (ctx : Ctx) (input : UpdateScheduleInput)
    (now : Nat) : Except ActionError (Option Schedule) × DB :=
  match requireUser ctx with
  | Except.error e => (Except.error e, db)
  | Except.ok user =>
      match getOwnedSchedule db input.id user with
      | Except.error e => (Except.error e, db)
      | Except.ok _ =>
          let db' : DB :=
            { db with
              schedules := db.schedules.map fun s =>
                if s.id == input.id && s.ownerUserId == user then
                  applyScheduleUpdate input now s
                else s }
          let updated := (db'.schedules.filter fun s =>
            s.id == input.id && s.ownerUserId == user).head?
          (Except.ok updated, db')

def updateScheduleAction (db : DB) (ctx : Ctx) (input : UpdateScheduleInput)
    (now : Nat) : Except ActionError (Option Schedule) × DB :=
  if validUpdateScheduleInput input then updateSchedule db ctx input now
  else (Except.error ⟨ErrCode.BAD_REQUEST, "Failed to validate: invalid input."⟩, db)

/-- One store write statement issued by `deleteSchedule`; keeping the
statement list explicit records the order the handler issues them in. -/
inductive WriteStmt where
  | delSuggestionsOf (scheduleId : String)
  | delParticipantsOf (scheduleId : String)
  | delScheduleRow (scheduleId userId : String)
  deriving Repr, DecidableEq

/-- Effect of one `deleteSchedule` statement on the store (lines 142–152). -/
def applyWrite (db : DB) : WriteStmt → DB
  | WriteStmt.delSuggestionsOf sid =>
      { db with suggestions := db.suggestions.filter fun s =>
          !(s.scheduleId == sid) }
  | WriteStmt.delParticipantsOf sid =>
      { db with participants := db.participants.filter fun p =>
          !(p.scheduleId == sid) }
  | WriteStmt.delScheduleRow sid uid =>
      { db with schedules := db.schedules.filter fun s =>
          !(s.id == sid && s.ownerUserId == uid) }

/-- The statements `deleteSchedule` issues, in source order: suggestions,
then participants, then the schedule row itself (filtered by id+owner). -/
def deleteScheduleStmts (scheduleId userId : String) : List WriteStmt :=
  [WriteStmt.delSuggestionsOf scheduleId,
   WriteStmt.delParticipantsOf scheduleId,
   WriteStmt.delScheduleRow scheduleId userId]

/-- `deleteSchedule` handler (lines 138–157). -/
def deleteSchedule (db : DB) (ctx : Ctx) (id : String) :
    Except ActionError Unit × DB :=
  match requireUser ctx with
  | Except.error e => (Except.error e, db)
  | Except.ok user =>
      match getOwnedSchedule db id user with
      | Except.error e => (Except.error e, db)
      | Except.ok _ =>
          (Except.ok (), (deleteScheduleStmts id user).foldl applyWrite db)

def deleteScheduleAction (db : DB) (ctx : Ctx) (id : String) :
    Except ActionError Unit × DB :=
  if nonemptyStr id then deleteSchedule db ctx id
  else (Except.error ⟨ErrCode.BAD_REQUEST, "Failed to validate: invalid input."⟩, db)

/-- Success payload of `listMySchedules`. -/
structure ListResult where
  items : List Schedule
  total : Nat
  page : Nat
  pageSize : Nat
  deriving Repr, DecidableEq

/-- zod schema of `listMySchedules` after defaults: positive ints,
`pageSize ≤ 100`. -/
def validListInput (page pageSize : Nat) : Bool :=
  decide (0 < page) && decide (0 < pageSize) && decide (pageSize ≤ 100)

/-- `listMySchedules` handler (lines 165–192): owner-scoped select with
`offset = (page−1)*pageSize` and `limit = pageSize`, owner-scoped count. -/
def listMySchedules (db : DB) (ctx : Ctx) (page pageSize : Nat) :
    Except ActionError ListResult × DB :=
  match requireUser ctx with
  | Except.error e => (Except.error e, db)
  | Except.ok user =>
      let offset := (page - 1) * pageSize
      let owned := db.schedules.filter fun s => s.ownerUserId == user
      let items := (owned.drop offset).take pageSize
      (Except.ok ⟨items, owned.length, page, pageSize⟩, db)

def listMySchedulesAction (db : DB) (ctx : Ctx) (page pageSize : Nat) :
    Except ActionError ListResult × DB :=
  if validListInput page pageSize then listMySchedules db ctx page pageSize
  else (Except.error ⟨ErrCode.BAD_REQUEST, "Failed to validate: invalid input."⟩, db)

/-- `getScheduleWithDetails` handler (lines 199–222). -/
def getScheduleWithDetails (db : DB) (ctx : Ctx) (id : String) :
    Except ActionError (Schedule × List Participant × List Suggestion) × DB :=
  match requireUser ctx with
  | Except.error e => (Except.error e, db)
  | Except.ok user =>
      match getOwnedSchedule db id user with
      | Except.error e => (Except.error e, db)
      | Except.ok schedule =>
          let participants := db.participants.filter fun p =>
            p.scheduleId == schedule.id
          let suggestions := db.suggestions.filter fun s =>
            s.scheduleId == schedule.id
          (Except.ok (schedule, participants, suggestions), db)

def getScheduleWithDetailsAction (db : DB) (ctx : Ctx) (id : String) :
    Except ActionError (Schedule × List Participant × List Suggestion) × DB :=
  if nonemptyStr id then getScheduleWithDetails db ctx id
  else (Except.error ⟨ErrCode.BAD_REQUEST, "Failed to validate: invalid input."⟩, db)

/-- Input of `upsertParticipant` (lines 226–232); `id` has no `.min`, so
the empty string passes the schema. -/
structure UpsertParticipantInput where
  id : Option String
  scheduleId : String
  name : String
  timeZone : String
  availabilityJson : Option String
  deriving Repr, DecidableEq

def validUpsertParticipantInput (i : UpsertParticipantInput) : Bool :=
  nonemptyStr i.scheduleId && nonemptyStr i.name && nonemptyStr i.timeZone

/-- The SET clause of the participant update (lines 255–267): `name` and
`timeZone` are always set; `availabilityJson` only when supplied
(drizzle drops `undefined` entries).  `id`, `scheduleId`, `createdAt` are
not in the clause. -/
def participantUpdateRow (i : UpsertParticipantInput) (p : Participant) :
    Participant :=
  { p with
    name := i.name
    timeZone := i.timeZone
    availabilityJson := setOrKeep i.availabilityJson p.availabilityJson }

/-- The VALUES of the participant insert (lines 269–276). -/
def newParticipantRow (i : UpsertParticipantInput) (newId : String)
    (tIns : Nat) : Participant :=
  { id := newId
    scheduleId := i.scheduleId
    name := i.name
    timeZone := i.timeZone
    availabilityJson := i.availabilityJson
    createdAt := tIns }

/-- `upsertParticipant` handler (lines 233–290).  `tIns` is the
`new Date()` stamped on an inserted row, `tTouch` the one inside
`touchScheduleUpdatedAt`. -/
def upsertParticipant (db : DB) (ctx : Ctx) (input : UpsertParticipantInput)
    (newId : String) (tIns tTouch : Nat) :
    Except ActionError (List Participant) × DB :=
  match requireUser ctx with
  | Except.error e => (Except.error e, db)
  | Except.ok user =>
      match getOwnedSchedule db input.scheduleId user with
      | Except.error e => (Except.error e, db)
      | Except.ok _ =>
          let step :=
            if idTruthy input.id then
              let iid := input.id.getD ""
              let existing := db.participants.filter fun p =>
                p.id == iid && p.scheduleId == input.scheduleId
              match existing.head? with
              | none =>
                  Except.error (⟨ErrCode.NOT_FOUND,
                    "Participant not found for this schedule."⟩ : ActionError)
              | some _ =>
                  Except.ok
                    { db with
                      participants := db.participants.map fun p =>
                        if p.id == iid && p.scheduleId == input.scheduleId then
                          participantUpdateRow input p
                        else p }
            else
              Except.ok
                { db with
                  participants := db.participants ++
                    [newParticipantRow input newId tIns] }
          match step with
          | Except.error e => (Except.error e, db)
          | Except.ok db' =>
              let db'' := touchScheduleUpdatedAt db' input.scheduleId tTouch
              let participants := db''.participants.filter fun p =>
                p.scheduleId == input.scheduleId
              (Except.ok participants, db'')

def upsertParticipantAction (db : DB) (ctx : Ctx)
    (input : UpsertParticipantInput) (newId : String) (tIns tTouch : Nat) :
    Except ActionError (List Participant) × DB :=
  if validUpsertParticipantInput input then
    upsertParticipant db ctx input newId tIns tTouch
  else (Except.error ⟨ErrCode.BAD_REQUEST, "Failed to validate: invalid input."⟩, db)

/-- `deleteParticipant` handler (lines 298–333). -/
def deleteParticipant (db : DB) (ctx : Ctx)
    (scheduleId participantId : String) (tTouch : Nat) :
    Except ActionError Unit × DB :=
  match requireUser ctx with
  | Except.error e => (Except.error e, db)
  | Except.ok user =>
      match getOwnedSchedule db scheduleId user with
      | Except.error e => (Except.error e, db)
      | Except.ok _ =>
          let matching := db.participants.filter fun p =>
            p.id == participantId && p.scheduleId == scheduleId
          match matching.head? with
          | none =>
              (Except.error ⟨ErrCode.NOT_FOUND,
                "Participant not found for this schedule."⟩, db)
          | some _ =>
              let db' : DB :=
                { db with
                  participants := db.participants.filter fun p =>
                    !(p.id == participantId && p.scheduleId == scheduleId) }
              (Except.ok (), touchScheduleUpdatedAt db' scheduleId tTouch)

def deleteParticipantAction (db : DB) (ctx : Ctx)
    (scheduleId participantId : String) (tTouch : Nat) :
    Except ActionError Unit × DB :=
  if nonemptyStr scheduleId && nonemptyStr participantId then
    deleteParticipant db ctx scheduleId participantId tTouch
  else (Except.error ⟨ErrCode.BAD_REQUEST, "Failed to validate: invalid input."⟩, db)

/-- Input of `upsertSuggestion` (lines 337–350). -/
structure UpsertSuggestionInput where
  id : Option String
  scheduleId : String
  suggestedStartUtc : Nat
  suggestedEndUtc : Nat
  participantsJson : Option String
  score : Option ℚ
  notes : Option String
  deriving Repr, DecidableEq

/-- zod schema of `upsertSuggestion`, the `.refine` (start < end) included. -/
def validUpsertSuggestionInput (i : UpsertSuggestionInput) : Bool :=
  nonemptyStr i.scheduleId && validScore i.score &&
    decide (i.suggestedStartUtc < i.suggestedEndUtc)

/-- The SET clause of the suggestion update (lines 373–387): start/end are
always set; `participantsJson`, `score`, `notes` only when supplied
(drizzle drops `undefined` entries).  `id`, `scheduleId`, `createdAt` are
not in the clause. -/
def suggestionUpdateRow (i : UpsertSuggestionInput) (s : Suggestion) :
    Suggestion :=
  { s with
    suggestedStartUtc := i.suggestedStartUtc
    suggestedEndUtc := i.suggestedEndUtc
    participantsJson := setOrKeep i.participantsJson s.participantsJson
    score := setOrKeep i.score s.score
    notes := setOrKeep i.notes s.notes }

/-- The VALUES of the suggestion insert (lines 389–398). -/
def newSuggestionRow (i : UpsertSuggestionInput) (newId : String)
    (tIns : Nat) : Suggestion :=
  { id := newId
    scheduleId := i.scheduleId
    suggestedStartUtc := i.suggestedStartUtc
    suggestedEndUtc := i.suggestedEndUtc
    participantsJson := i.participantsJson
    score := i.score
    notes := i.notes
    createdAt := tIns }

/-- `upsertSuggestion` handler (lines 351–412). -/
def upsertSuggestion (db : DB) (ctx : Ctx) (input : UpsertSuggestionInput)
    (newId : String) (tIns tTouch : Nat) :
    Except ActionError (List Suggestion) × DB :=
  match requireUser ctx with
  | Except.error e => (Except.error e, db)
  | Except.ok user =>
      match getOwnedSchedule db input.scheduleId user with
      | Except.error e => (Except.error e, db)
      | Except.ok _ =>
          let step :=
            if idTruthy input.id then
              let iid := input.id.getD ""
              let existing := db.suggestions.filter fun s =>
                s.id == iid && s.scheduleId == input.scheduleId
              match existing.head? with
              | none =>
                  Except.error (⟨ErrCode.NOT_FOUND,
                    "Suggestion not found for this schedule."⟩ : ActionError)
              | some _ =>
                  Except.ok
                    { db with
                      suggestions := db.suggestions.map fun s =>
                        if s.id == iid && s.scheduleId == input.scheduleId then
                          suggestionUpdateRow input s
                        else s }
            else
              Except.ok
                { db with
                  suggestions := db.suggestions ++
                    [newSuggestionRow input newId tIns] }
          match step with
          | Except.error e => (Except.error e, db)
          | Except.ok db' =>
              let db'' := touchScheduleUpdatedAt db' input.scheduleId tTouch
              let suggestions := db''.suggestions.filter fun s =>
                s.scheduleId == input.scheduleId
              (Except.ok suggestions, db'')

def upsertSuggestionAction (db : DB) (ctx : Ctx)
    (input : UpsertSuggestionInput) (newId : String) (tIns tTouch : Nat) :
    Except ActionError (List Suggestion) × DB :=
  if validUpsertSuggestionInput input then
    upsertSuggestion db ctx input newId tIns tTouch
  else (Except.error ⟨ErrCode.BAD_REQUEST, "Failed to validate: invalid input."⟩, db)

/-- `deleteSuggestion` handler (lines 420–455). -/
def deleteSuggestion (db : DB) (ctx : Ctx)
    (scheduleId suggestionId : String) (tTouch : Nat) :
    Except ActionError Unit × DB :=
  match requireUser ctx with
  | Except.error e => (Except.error e, db)
  | Except.ok user =>
      match getOwnedSchedule db scheduleId user with
      | Except.error e => (Except.error e, db)
      | Except.ok _ =>
          let matching := db.suggestions.filter fun s =>
            s.id == suggestionId && s.scheduleId == scheduleId
          match matching.head? with
          | none =>
              (Except.error ⟨ErrCode.NOT_FOUND,
                "Suggestion not found for this schedule."⟩, db)
          | some _ =>
              let db' : DB :=
                { db with
                  suggestions := db.suggestions.filter fun s =>
                    !(s.id == suggestionId && s.scheduleId == scheduleId) }
              (Except.ok (), touchScheduleUpdatedAt db' scheduleId tTouch)

def deleteSuggestionAction (db : DB) (ctx : Ctx)
    (scheduleId suggestionId : String) (tTouch : Nat) :
    Except ActionError Unit × DB :=
  if nonemptyStr scheduleId && nonemptyStr suggestionId then
    deleteSuggestion db ctx scheduleId suggestionId tTouch
  else (Except.error ⟨ErrCode.BAD_REQUEST, "Failed to validate: invalid input."⟩, db)

instance exceptDecEq {ε α : Type} [DecidableEq ε] [DecidableEq α] :
    DecidableEq (Except ε α)
  | Except.ok a, Except.ok b =>
      if h : a = b then isTrue (by rw [h]) else
        isFalse (by intro hc; cases hc; exact h rfl)
  | Except.error a, Except.error b =>
      if h : a = b then isTrue (by rw [h]) else
        isFalse (by intro hc; cases hc; exact h rfl)
  | Except.ok _, Except.error _ => isFalse (by intro hc; cases hc)
  | Except.error _, Except.ok _ => isFalse (by intro hc; cases hc)

/-! Concrete fixtures used by the closed instance theorems below. -/

def exSched1 : Schedule := ⟨"s1", "alice", "Team sync", none, none, none, 10, 10⟩

def exSched2 : Schedule :=
  ⟨"s2", "alice", "Client meeting", none, none, none, 11, 11⟩

def exSchedBob : Schedule := ⟨"sb", "bob", "Bob plan", none, none, none, 12, 12⟩

def exPart : Participant := ⟨"p1", "s2", "Karthik", "Asia/Dubai", some "old", 12⟩

def exSugg : Suggestion := ⟨"g1", "s2", 100, 200, none, some 50, none, 13⟩

def exDB : DB := ⟨[exSched1, exSched2, exSchedBob], [exPart], [exSugg]⟩

/-- `n` schedules all owned by `alice`, for the pagination instance. -/
def manySched (n : Nat) : List Schedule :=
  (List.range n).map fun k =>
    ⟨"m" ++ toString k, "alice", "S", none, none, none, k, k⟩

def exDB25 : DB := ⟨manySched 25, [], []⟩

/-! Shared lemmas about the ownership guard. -/

theorem getOwnedSchedule_eq_notFound (db : DB) (sid uid : String)
    (h : ∀ s ∈ db.schedules, ¬(s.id = sid ∧ s.ownerUserId = uid)) :
    getOwnedSchedule db sid uid =
      Except.error ⟨ErrCode.NOT_FOUND, "Schedule not found."⟩ := by
  unfold getOwnedSchedule
  have hnil : (db.schedules.filter fun s =>
      s.id == sid && s.ownerUserId == uid) = [] := by
    refine List.filter_eq_nil_iff.mpr ?_
    intro s hs
    simpa [Bool.and_eq_true, beq_iff_eq] using h s hs
  rw [hnil]
  rfl

theorem getOwnedSchedule_ok_mem (db : DB) (sid uid : String) (S : Schedule)
    (h : getOwnedSchedule db sid uid = Except.ok S) :
    S ∈ db.schedules ∧ S.id = sid ∧ S.ownerUserId = uid := by
  unfold getOwnedSchedule at h
  cases hh : (db.schedules.filter fun s =>
      s.id == sid && s.ownerUserId == uid).head? with
  | none => rw [hh] at h; cases h
  | some s =>
    rw [hh] at h
    cases h
    have hm : S ∈ db.schedules.filter fun s =>
        s.id == sid && s.ownerUserId == uid :=
      List.mem_of_mem_head? (by rw [hh]; exact rfl)
    have hms := List.mem_filter.mp hm
    have hp := hms.2
    simp only [Bool.and_eq_true, beq_iff_eq] at hp
    exact ⟨hms.1, hp.1, hp.2⟩

/-- If no schedule row has both the given id and the given owner, the
ownership guard rejects.  This covers the row-owned-by-someone-else case
(given primary-key uniqueness of ids) and the no-such-id case alike. -/
theorem noOwnedRow_of_otherOwner_or_absent (db : DB) (sid B : String)
    (hno : (∃ S ∈ db.schedules, S.id = sid ∧ S.ownerUserId ≠ B ∧
              (db.schedules.map Schedule.id).Nodup) ∨
           (∀ s ∈ db.schedules, s.id ≠ sid)) :
    ∀ s ∈ db.schedules, ¬(s.id = sid ∧ s.ownerUserId = B) := by
  rcases hno with ⟨S, hS, hid, hown, hnd⟩ | habs
  · intro s hs hc
    have hss : s = S :=
      List.inj_on_of_nodup_map hnd hs hS (by rw [hc.1, hid])
    exact hown (by rw [← hss, hc.2])
  · intro s hs hc
    exact habs s hs hc.1

/-- C1: a caller who is not the owner of schedule `sid` — whether some other
user owns a row with that id (primary-key uniqueness assumed), or no row
with that id exists at all — gets the same `NOT_FOUND` error with the same
message `"Schedule not found."` from every operation targeting an existing
schedule or its children (updateSchedule, deleteSchedule,
getScheduleWithDetails, upsertParticipant, deleteParticipant,
upsertSuggestion, deleteSuggestion), and the store is left unchanged. -/
theorem c1_cross_user_not_found_indistinguishable
    (db : DB) (sid B : String)
    (hno : (∃ S ∈ db.schedules, S.id = sid ∧ S.ownerUserId ≠ B ∧
              (db.schedules.map Schedule.id).Nodup) ∨
           (∀ s ∈ db.schedules, s.id ≠ sid))
    (u : UpdateScheduleInput) (hu : validUpdateScheduleInput u = true)
    (huid : u.id = sid)
    (p : UpsertParticipantInput) (hp : validUpsertParticipantInput p = true)
    (hpid : p.scheduleId = sid)
    (g : UpsertSuggestionInput) (hg : validUpsertSuggestionInput g = true)
    (hgid : g.scheduleId = sid)
    (childId : String) (hcid : nonemptyStr childId = true)
    (hsid : nonemptyStr sid = true)
    (now tIns tTouch : Nat) (nid : String) :
    updateScheduleAction db ⟨some B⟩ u now =
      (Except.error ⟨ErrCode.NOT_FOUND, "Schedule not found."⟩, db) ∧
    deleteScheduleAction db ⟨some B⟩ sid =
      (Except.error ⟨ErrCode.NOT_FOUND, "Schedule not found."⟩, db) ∧
    getScheduleWithDetailsAction db ⟨some B⟩ sid =
      (Except.error ⟨ErrCode.NOT_FOUND, "Schedule not found."⟩, db) ∧
    upsertParticipantAction db ⟨some B⟩ p nid tIns tTouch =
      (Except.error ⟨ErrCode.NOT_FOUND, "Schedule not found."⟩, db) ∧
    deleteParticipantAction db ⟨some B⟩ sid childId tTouch =
      (Except.error ⟨ErrCode.NOT_FOUND, "Schedule not found."⟩, db) ∧
    upsertSuggestionAction db ⟨some B⟩ g nid tIns tTouch =
      (Except.error ⟨ErrCode.NOT_FOUND, "Schedule not found."⟩, db) ∧
    deleteSuggestionAction db ⟨some B⟩ sid childId tTouch =
      (Except.error ⟨ErrCode.NOT_FOUND, "Schedule not found."⟩, db) := by
  have hcore := noOwnedRow_of_otherOwner_or_absent db sid B hno
  have hg0 : getOwnedSchedule db sid B =
      Except.error ⟨ErrCode.NOT_FOUND, "Schedule not found."⟩ :=
    getOwnedSchedule_eq_notFound db sid B hcore
  refine ⟨?_, ?_, ?_, ?_, ?_, ?_, ?_⟩
  · simp [updateScheduleAction, updateSchedule, requireUser, hu, huid, hg0]
  · simp [deleteScheduleAction, deleteSchedule, requireUser, hsid, hg0]
  · simp [getScheduleWithDetailsAction, getScheduleWithDetails, requireUser,
      hsid, hg0]
  · simp [upsertParticipantAction, upsertParticipant, requireUser, hp, hpid,
      hg0]
  · simp [deleteParticipantAction, deleteParticipant, requireUser, hsid,
      hcid, hg0]
  · simp [upsertSuggestionAction, upsertSuggestion, requireUser, hg, hgid,
      hg0]
  · simp [deleteSuggestionAction, deleteSuggestion, requireUser, hsid, hcid,
      hg0]

/-- Witness for C1: `bob` calls all seven operations on `"s1"`, which
`alice` owns in `exDB`; each fails with the same `NOT_FOUND` error. -/
theorem c1_cross_user_not_found_indistinguishable_witness :
    updateScheduleAction exDB ⟨some "bob"⟩
        ⟨"s1", some "Renamed", none, none, none⟩ 99 =
      (Except.error ⟨ErrCode.NOT_FOUND, "Schedule not found."⟩, exDB) ∧
    deleteScheduleAction exDB ⟨some "bob"⟩ "s1" =
      (Except.error ⟨ErrCode.NOT_FOUND, "Schedule not found."⟩, exDB) ∧
    getScheduleWithDetailsAction exDB ⟨some "bob"⟩ "s1" =
      (Except.error ⟨ErrCode.NOT_FOUND, "Schedule not found."⟩, exDB) ∧
    upsertParticipantAction exDB ⟨some "bob"⟩ ⟨none, "s1", "X", "UTC", none⟩
        "n1" 1 2 =
      (Except.error ⟨ErrCode.NOT_FOUND, "Schedule not found."⟩, exDB) ∧
    deleteParticipantAction exDB ⟨some "bob"⟩ "s1" "c1" 2 =
      (Except.error ⟨ErrCode.NOT_FOUND, "Schedule not found."⟩, exDB) ∧
    upsertSuggestionAction exDB ⟨some "bob"⟩ ⟨none, "s1", 1, 2, none, none, none⟩
        "n1" 1 2 =
      (Except.error ⟨ErrCode.NOT_FOUND, "Schedule not found."⟩, exDB) ∧
    deleteSuggestionAction exDB ⟨some "bob"⟩ "s1" "c1" 2 =
      (Except.error ⟨ErrCode.NOT_FOUND, "Schedule not found."⟩, exDB) :=
  c1_cross_user_not_found_indistinguishable exDB "s1" "bob" (by decide)
    ⟨"s1", some "Renamed", none, none, none⟩ (by decide) rfl
    ⟨none, "s1", "X", "UTC", none⟩ (by decide) rfl
    ⟨none, "s1", 1, 2, none, none, none⟩ (by decide) rfl
    "c1" (by decide) (by decide) 99 1 2 "n1"

/-- C2: for a schedule the caller owns, `deleteSchedule` succeeds, issues
its three delete statements in the fixed order suggestions → participants
→ schedule row last, and afterwards the child queries by that scheduleId
return the empty collection and no schedule row with that id remains
(primary-key uniqueness of schedule ids assumed). -/
theorem c2_cascade_delete_order_and_children_empty
    (db : DB) (A sid : String) (S : Schedule)
    (hok : getOwnedSchedule db sid A = Except.ok S)
    (hsid : nonemptyStr sid = true)
    (hnd : (db.schedules.map Schedule.id).Nodup) :
    deleteScheduleStmts sid A =
      [WriteStmt.delSuggestionsOf sid, WriteStmt.delParticipantsOf sid,
       WriteStmt.delScheduleRow sid A] ∧
    (deleteScheduleAction db ⟨some A⟩ sid).1 = Except.ok () ∧
    (deleteScheduleAction db ⟨some A⟩ sid).2 =
      (deleteScheduleStmts sid A).foldl applyWrite db ∧
    ((deleteScheduleAction db ⟨some A⟩ sid).2.participants.filter fun p =>
      p.scheduleId == sid) = [] ∧
    ((deleteScheduleAction db ⟨some A⟩ sid).2.suggestions.filter fun s =>
      s.scheduleId == sid) = [] ∧
    ((deleteScheduleAction db ⟨some A⟩ sid).2.schedules.filter fun s =>
      s.id == sid) = [] := by
  obtain ⟨hSmem, hSid, hSown⟩ := getOwnedSchedule_ok_mem db sid A S hok
  have hact : deleteScheduleAction db ⟨some A⟩ sid =
      (Except.ok (), (deleteScheduleStmts sid A).foldl applyWrite db) := by
    simp [deleteScheduleAction, deleteSchedule, requireUser, hsid, hok]
  have hfold : (deleteScheduleStmts sid A).foldl applyWrite db =
      ⟨db.schedules.filter fun s => !(s.id == sid && s.ownerUserId == A),
       db.participants.filter fun p => !(p.scheduleId == sid),
       db.suggestions.filter fun s => !(s.scheduleId == sid)⟩ := rfl
  refine ⟨rfl, by rw [hact], by rw [hact], ?_, ?_, ?_⟩
  · rw [hact, hfold]
    simp [List.filter_filter]
  · rw [hact, hfold]
    simp [List.filter_filter]
  · rw [hact, hfold]
    refine List.filter_eq_nil_iff.mpr ?_
    intro s hs
    have hm := List.mem_filter.mp hs
    intro hsid'
    have hid : s.id = sid := by simpa using hsid'
    have hss : s = S := List.inj_on_of_nodup_map hnd hm.1 hSmem (by rw [hid, hSid])
    have := hm.2
    rw [hss, hSid, hSown] at this
    simp at this

/-- Witness for C2: `alice` deletes `"s2"` in `exDB`, which holds one
participant and one suggestion under `"s2"`. -/
theorem c2_cascade_delete_order_and_children_empty_witness :
    deleteScheduleStmts "s2" "alice" =
      [WriteStmt.delSuggestionsOf "s2", WriteStmt.delParticipantsOf "s2",
       WriteStmt.delScheduleRow "s2" "alice"] ∧
    (deleteScheduleAction exDB ⟨some "alice"⟩ "s2").1 = Except.ok () ∧
    (deleteScheduleAction exDB ⟨some "alice"⟩ "s2").2 =
      (deleteScheduleStmts "s2" "alice").foldl applyWrite exDB ∧
    ((deleteScheduleAction exDB ⟨some "alice"⟩ "s2").2.participants.filter
      fun p => p.scheduleId == "s2") = [] ∧
    ((deleteScheduleAction exDB ⟨some "alice"⟩ "s2").2.suggestions.filter
      fun s => s.scheduleId == "s2") = [] ∧
    ((deleteScheduleAction exDB ⟨some "alice"⟩ "s2").2.schedules.filter
      fun s => s.id == "s2") = [] :=
  c2_cascade_delete_order_and_children_empty exDB "alice" "s2" exSched2
    (by rfl) (by decide) (by decide)

/-- Counterexample to C3 as stated: in `exDB`, `alice` owns `"s1"`, the
supplied participant id `""` names no row at all (no participant has the
empty id), yet `upsertParticipant` does not fail `NOT_FOUND` — the empty
string is falsy in `if (input.id)`, so the call takes the create branch
and inserts a row. -/
theorem c3_empty_id_counterexample :
    ("" ∈ exDB.participants.map Participant.id) = False ∧
    (upsertParticipantAction exDB ⟨some "alice"⟩
        ⟨some "", "s1", "Newbie", "UTC", none⟩ "fresh1" 20 21).1 ≠
      Except.error ⟨ErrCode.NOT_FOUND,
        "Participant not found for this schedule."⟩ ∧
    (upsertParticipantAction exDB ⟨some "alice"⟩
        ⟨some "", "s1", "Newbie", "UTC", none⟩ "fresh1" 20 21).1 =
      Except.ok [⟨"fresh1", "s1", "Newbie", "UTC", none, 20⟩] ∧
    (upsertParticipantAction exDB ⟨some "alice"⟩
        ⟨some "", "s1", "Newbie", "UTC", none⟩ "fresh1" 20 21).2.participants =
      exDB.participants ++ [⟨"fresh1", "s1", "Newbie", "UTC", none, 20⟩] := by
  refine ⟨by simp [exDB, exPart], by decide, by decide, by decide⟩

/-- C3 (amended): for a *nonempty* supplied id that names a child row of a
different schedule, or no row at all, `upsertParticipant` /
`upsertSuggestion` fail `NOT_FOUND` and leave every table unchanged, even
though the caller owns the target schedule. -/
theorem c3_nonempty_foreign_id_not_found
    (db : DB) (uA : String)
    (p : UpsertParticipantInput) (hpv : validUpsertParticipantInput p = true)
    (Sp : Schedule) (hpS : getOwnedSchedule db p.scheduleId uA = Except.ok Sp)
    (hptr : idTruthy p.id = true)
    (hpno : ∀ q ∈ db.participants,
      ¬(q.id = p.id.getD "" ∧ q.scheduleId = p.scheduleId))
    (g : UpsertSuggestionInput) (hgv : validUpsertSuggestionInput g = true)
    (Sg : Schedule) (hgS : getOwnedSchedule db g.scheduleId uA = Except.ok Sg)
    (hgtr : idTruthy g.id = true)
    (hgno : ∀ q ∈ db.suggestions,
      ¬(q.id = g.id.getD "" ∧ q.scheduleId = g.scheduleId))
    (nid : String) (tIns tTouch : Nat) :
    upsertParticipantAction db ⟨some uA⟩ p nid tIns tTouch =
      (Except.error ⟨ErrCode.NOT_FOUND,
        "Participant not found for this schedule."⟩, db) ∧
    upsertSuggestionAction db ⟨some uA⟩ g nid tIns tTouch =
      (Except.error ⟨ErrCode.NOT_FOUND,
        "Suggestion not found for this schedule."⟩, db) := by
  have hnilp : (db.participants.filter fun q =>
      q.id == p.id.getD "" && q.scheduleId == p.scheduleId) = [] := by
    refine List.filter_eq_nil_iff.mpr ?_
    intro q hq
    simpa [Bool.and_eq_true, beq_iff_eq] using hpno q hq
  have hnilg : (db.suggestions.filter fun q =>
      q.id == g.id.getD "" && q.scheduleId == g.scheduleId) = [] := by
    refine List.filter_eq_nil_iff.mpr ?_
    intro q hq
    simpa [Bool.and_eq_true, beq_iff_eq] using hgno q hq
  constructor
  · simp [upsertParticipantAction, upsertParticipant, requireUser, hpv, hpS,
      hptr, hnilp]
  · simp [upsertSuggestionAction, upsertSuggestion, requireUser, hgv, hgS,
      hgtr, hnilg]

/-- Witness for the amended C3: in `exDB`, participant `"p1"` belongs to
`"s2"`; upserting it under `"s1"` fails `NOT_FOUND`, as does upserting the
nonexistent suggestion id `"gX"` under `"s1"`. -/
theorem c3_nonempty_foreign_id_not_found_witness :
    upsertParticipantAction exDB ⟨some "alice"⟩
        ⟨some "p1", "s1", "Bob", "UTC", none⟩ "n1" 1 2 =
      (Except.error ⟨ErrCode.NOT_FOUND,
        "Participant not found for this schedule."⟩, exDB) ∧
    upsertSuggestionAction exDB ⟨some "alice"⟩
        ⟨some "gX", "s1", 1, 2, none, none, none⟩ "n1" 1 2 =
      (Except.error ⟨ErrCode.NOT_FOUND,
        "Suggestion not found for this schedule."⟩, exDB) :=
  c3_nonempty_foreign_id_not_found exDB "alice"
    ⟨some "p1", "s1", "Bob", "UTC", none⟩ (by decide) exSched1 (by rfl)
    (by decide) (by decide)
    ⟨some "gX", "s1", 1, 2, none, none, none⟩ (by decide) exSched1 (by rfl)
    (by decide) (by decide)
    "n1" 1 2

/-! Shape of the two upsert branches, for each child type. -/

theorem upsertParticipant_create_eq
    (db : DB) (u : String) (i : UpsertParticipantInput) (nid : String)
    (tIns tTouch : Nat) (S : Schedule)
    (hv : validUpsertParticipantInput i = true)
    (hS : getOwnedSchedule db i.scheduleId u = Except.ok S)
    (hfalse : idTruthy i.id = false) :
    upsertParticipantAction db ⟨some u⟩ i nid tIns tTouch =
      (Except.ok ((db.participants ++ [newParticipantRow i nid tIns]).filter
        fun p => p.scheduleId == i.scheduleId),
       ⟨db.schedules.map (touchRow i.scheduleId tTouch),
        db.participants ++ [newParticipantRow i nid tIns],
        db.suggestions⟩) := by
  simp [upsertParticipantAction, upsertParticipant, requireUser, hv, hS,
    hfalse, touchScheduleUpdatedAt]

theorem upsertParticipant_update_eq
    (db : DB) (u : String) (i : UpsertParticipantInput) (nid : String)
    (tIns tTouch : Nat) (S : Schedule) (q : Participant)
    (hv : validUpsertParticipantInput i = true)
    (hS : getOwnedSchedule db i.scheduleId u = Except.ok S)
    (htr : idTruthy i.id = true)
    (hhead : (db.participants.filter fun p =>
      p.id == i.id.getD "" && p.scheduleId == i.scheduleId).head? = some q) :
    upsertParticipantAction db ⟨some u⟩ i nid tIns tTouch =
      (Except.ok ((db.participants.map fun p =>
          if p.id == i.id.getD "" && p.scheduleId == i.scheduleId then
            participantUpdateRow i p
          else p).filter fun p => p.scheduleId == i.scheduleId),
       ⟨db.schedules.map (touchRow i.scheduleId tTouch),
        db.participants.map fun p =>
          if p.id == i.id.getD "" && p.scheduleId == i.scheduleId then
            participantUpdateRow i p
          else p,
        db.suggestions⟩) := by
  simp [upsertParticipantAction, upsertParticipant, requireUser, hv, hS,
    htr, hhead, touchScheduleUpdatedAt]

theorem upsertSuggestion_create_eq
    (db : DB) (u : String) (i : UpsertSuggestionInput) (nid : String)
    (tIns tTouch : Nat) (S : Schedule)
    (hv : validUpsertSuggestionInput i = true)
    (hS : getOwnedSchedule db i.scheduleId u = Except.ok S)
    (hfalse : idTruthy i.id = false) :
    upsertSuggestionAction db ⟨some u⟩ i nid tIns tTouch =
      (Except.ok ((db.suggestions ++ [newSuggestionRow i nid tIns]).filter
        fun s => s.scheduleId == i.scheduleId),
       ⟨db.schedules.map (touchRow i.scheduleId tTouch),
        db.participants,
        db.suggestions ++ [newSuggestionRow i nid tIns]⟩) := by
  simp [upsertSuggestionAction, upsertSuggestion, requireUser, hv, hS,
    hfalse, touchScheduleUpdatedAt]

theorem upsertSuggestion_update_eq
    (db : DB) (u : String) (i : UpsertSuggestionInput) (nid : String)
    (tIns tTouch : Nat) (S : Schedule) (q : Suggestion)
    (hv : validUpsertSuggestionInput i = true)
    (hS : getOwnedSchedule db i.scheduleId u = Except.ok S)
    (htr : idTruthy i.id = true)
    (hhead : (db.suggestions.filter fun s =>
      s.id == i.id.getD "" && s.scheduleId == i.scheduleId).head? = some q) :
    upsertSuggestionAction db ⟨some u⟩ i nid tIns tTouch =
      (Except.ok ((db.suggestions.map fun s =>
          if s.id == i.id.getD "" && s.scheduleId == i.scheduleId then
            suggestionUpdateRow i s
          else s).filter fun s => s.scheduleId == i.scheduleId),
       ⟨db.schedules.map (touchRow i.scheduleId tTouch),
        db.participants,
        db.suggestions.map fun s =>
          if s.id == i.id.getD "" && s.scheduleId == i.scheduleId then
            suggestionUpdateRow i s
          else s⟩) := by
  simp [upsertSuggestionAction, upsertSuggestion, requireUser, hv, hS,
    htr, hhead, touchScheduleUpdatedAt]

/-- C4: an upsert without an id inserts exactly one new row, carrying the
freshly generated id and `createdAt` stamped with the insert time, and id
uniqueness of the table is preserved when the generated id is fresh; an
upsert with a valid owned id updates in place — the table keeps its
length and every row keeps its `id`, `scheduleId` and `createdAt`.  Both
child types. -/
theorem c4_create_fresh_update_in_place :
    (∀ (db : DB) (u : String) (i : UpsertParticipantInput) (nid : String)
        (tIns tTouch : Nat) (S : Schedule),
      validUpsertParticipantInput i = true →
      getOwnedSchedule db i.scheduleId u = Except.ok S →
      i.id = none →
      nid ∉ db.participants.map Participant.id →
      (db.participants.map Participant.id).Nodup →
      (upsertParticipantAction db ⟨some u⟩ i nid tIns tTouch).2.participants =
        db.participants ++ [newParticipantRow i nid tIns] ∧
      newParticipantRow i nid tIns =
        ⟨nid, i.scheduleId, i.name, i.timeZone, i.availabilityJson, tIns⟩ ∧
      ((upsertParticipantAction db ⟨some u⟩ i nid tIns
        tTouch).2.participants.map Participant.id).Nodup) ∧
    (∀ (db : DB) (u : String) (i : UpsertParticipantInput) (nid : String)
        (tIns tTouch : Nat) (S : Schedule) (q : Participant),
      validUpsertParticipantInput i = true →
      getOwnedSchedule db i.scheduleId u = Except.ok S →
      idTruthy i.id = true →
      (db.participants.filter fun p =>
        p.id == i.id.getD "" && p.scheduleId == i.scheduleId).head? = some q →
      (upsertParticipantAction db ⟨some u⟩ i nid tIns
          tTouch).2.participants.length = db.participants.length ∧
      (upsertParticipantAction db ⟨some u⟩ i nid tIns tTouch).2.participants.map
          (fun p => (p.id, p.scheduleId, p.createdAt)) =
        db.participants.map (fun p => (p.id, p.scheduleId, p.createdAt))) ∧
    (∀ (db : DB) (u : String) (i : UpsertSuggestionInput) (nid : String)
        (tIns tTouch : Nat) (S : Schedule),
      validUpsertSuggestionInput i = true →
      getOwnedSchedule db i.scheduleId u = Except.ok S →
      i.id = none →
      nid ∉ db.suggestions.map Suggestion.id →
      (db.suggestions.map Suggestion.id).Nodup →
      (upsertSuggestionAction db ⟨some u⟩ i nid tIns tTouch).2.suggestions =
        db.suggestions ++ [newSuggestionRow i nid tIns] ∧
      newSuggestionRow i nid tIns =
        ⟨nid, i.scheduleId, i.suggestedStartUtc, i.suggestedEndUtc,
          i.participantsJson, i.score, i.notes, tIns⟩ ∧
      ((upsertSuggestionAction db ⟨some u⟩ i nid tIns
        tTouch).2.suggestions.map Suggestion.id).Nodup) ∧
    (∀ (db : DB) (u : String) (i : UpsertSuggestionInput) (nid : String)
        (tIns tTouch : Nat) (S : Schedule) (q : Suggestion),
      validUpsertSuggestionInput i = true →
      getOwnedSchedule db i.scheduleId u = Except.ok S →
      idTruthy i.id = true →
      (db.suggestions.filter fun s =>
        s.id == i.id.getD "" && s.scheduleId == i.scheduleId).head? = some q →
      (upsertSuggestionAction db ⟨some u⟩ i nid tIns
          tTouch).2.suggestions.length = db.suggestions.length ∧
      (upsertSuggestionAction db ⟨some u⟩ i nid tIns tTouch).2.suggestions.map
          (fun s => (s.id, s.scheduleId, s.createdAt)) =
        db.suggestions.map (fun s => (s.id, s.scheduleId, s.createdAt))) := by
  refine ⟨?_, ?_, ?_, ?_⟩
  · intro db u i nid tIns tTouch S hv hS hnone hfresh hnd
    have hfalse : idTruthy i.id = false := by rw [hnone]; rfl
    rw [upsertParticipant_create_eq db u i nid tIns tTouch S hv hS hfalse]
    refine ⟨rfl, rfl, ?_⟩
    simp only [List.map_append]
    simp [newParticipantRow, List.nodup_append, hnd, hfresh]
  · intro db u i nid tIns tTouch S q hv hS htr hhead
    rw [upsertParticipant_update_eq db u i nid tIns tTouch S q hv hS htr hhead]
    refine ⟨by simp, ?_⟩
    show (db.participants.map _).map _ = _
    rw [List.map_map]
    refine List.map_congr_left ?_
    intro p _
    simp only [Function.comp_apply]
    split <;> simp [participantUpdateRow]
  · intro db u i nid tIns tTouch S hv hS hnone hfresh hnd
    have hfalse : idTruthy i.id = false := by rw [hnone]; rfl
    rw [upsertSuggestion_create_eq db u i nid tIns tTouch S hv hS hfalse]
    refine ⟨rfl, rfl, ?_⟩
    simp only [List.map_append]
    simp [newSuggestionRow, List.nodup_append, hnd, hfresh]
  · intro db u i nid tIns tTouch S q hv hS htr hhead
    rw [upsertSuggestion_update_eq db u i nid tIns tTouch S q hv hS htr hhead]
    refine ⟨by simp, ?_⟩
    show (db.suggestions.map _).map _ = _
    rw [List.map_map]
    refine List.map_congr_left ?_
    intro s _
    simp only [Function.comp_apply]
    split <;> simp [suggestionUpdateRow]

/-- Witness for C4: one concrete instance of each of its four parts,
against `exDB`. -/
theorem c4_create_fresh_update_in_place_witness :
    ((upsertParticipantAction exDB ⟨some "alice"⟩
        ⟨none, "s1", "New", "UTC", none⟩ "np" 30 31).2.participants =
      exDB.participants ++
        [newParticipantRow ⟨none, "s1", "New", "UTC", none⟩ "np" 30] ∧
      newParticipantRow ⟨none, "s1", "New", "UTC", none⟩ "np" 30 =
        ⟨"np", "s1", "New", "UTC", none, 30⟩ ∧
      ((upsertParticipantAction exDB ⟨some "alice"⟩
        ⟨none, "s1", "New", "UTC", none⟩ "np" 30 31).2.participants.map
          Participant.id).Nodup) ∧
    ((upsertParticipantAction exDB ⟨some "alice"⟩
        ⟨some "p1", "s2", "K2", "UTC", none⟩ "np" 30 31).2.participants.length =
      exDB.participants.length ∧
      (upsertParticipantAction exDB ⟨some "alice"⟩
        ⟨some "p1", "s2", "K2", "UTC", none⟩ "np" 30 31).2.participants.map
          (fun p => (p.id, p.scheduleId, p.createdAt)) =
        exDB.participants.map (fun p => (p.id, p.scheduleId, p.createdAt))) ∧
    ((upsertSuggestionAction exDB ⟨some "alice"⟩
        ⟨none, "s2", 300, 400, none, none, none⟩ "ng" 30 31).2.suggestions =
      exDB.suggestions ++
        [newSuggestionRow ⟨none, "s2", 300, 400, none, none, none⟩ "ng" 30] ∧
      newSuggestionRow ⟨none, "s2", 300, 400, none, none, none⟩ "ng" 30 =
        ⟨"ng", "s2", 300, 400, none, none, none, 30⟩ ∧
      ((upsertSuggestionAction exDB ⟨some "alice"⟩
        ⟨none, "s2", 300, 400, none, none, none⟩ "ng" 30 31).2.suggestions.map
          Suggestion.id).Nodup) ∧
    ((upsertSuggestionAction exDB ⟨some "alice"⟩
        ⟨some "g1", "s2", 300, 400, none, none, some "n"⟩ "ng" 30
          31).2.suggestions.length = exDB.suggestions.length ∧
      (upsertSuggestionAction exDB ⟨some "alice"⟩
        ⟨some "g1", "s2", 300, 400, none, none, some "n"⟩ "ng" 30
          31).2.suggestions.map (fun s => (s.id, s.scheduleId, s.createdAt)) =
        exDB.suggestions.map (fun s => (s.id, s.scheduleId, s.createdAt))) :=
  ⟨c4_create_fresh_update_in_place.1 exDB "alice"
      ⟨none, "s1", "New", "UTC", none⟩ "np" 30 31 exSched1
      (by decide) (by rfl) rfl (by decide) (by decide),
    c4_create_fresh_update_in_place.2.1 exDB "alice"
      ⟨some "p1", "s2", "K2", "UTC", none⟩ "np" 30 31 exSched2 exPart
      (by decide) (by rfl) (by decide) (by rfl),
    c4_create_fresh_update_in_place.2.2.1 exDB "alice"
      ⟨none, "s2", 300, 400, none, none, none⟩ "ng" 30 31 exSched2
      (by decide) (by rfl) rfl (by decide) (by decide),
    c4_create_fresh_update_in_place.2.2.2 exDB "alice"
      ⟨some "g1", "s2", 300, 400, none, none, some "n"⟩ "ng" 30 31 exSched2
      exSugg (by decide) (by rfl) (by decide) (by rfl)⟩

theorem deleteParticipant_delete_eq
    (db : DB) (u sid pid : String) (tTouch : Nat) (S : Schedule)
    (q : Participant)
    (hsid : nonemptyStr sid = true) (hpid : nonemptyStr pid = true)
    (hS : getOwnedSchedule db sid u = Except.ok S)
    (hhead : (db.participants.filter fun p =>
      p.id == pid && p.scheduleId == sid).head? = some q) :
    deleteParticipantAction db ⟨some u⟩ sid pid tTouch =
      (Except.ok (),
       ⟨db.schedules.map (touchRow sid tTouch),
        db.participants.filter fun p => !(p.id == pid && p.scheduleId == sid),
        db.suggestions⟩) := by
  simp [deleteParticipantAction, deleteParticipant, requireUser, hsid, hpid,
    hS, hhead, touchScheduleUpdatedAt]

theorem deleteSuggestion_delete_eq
    (db : DB) (u sid gid : String) (tTouch : Nat) (S : Schedule)
    (q : Suggestion)
    (hsid : nonemptyStr sid = true) (hgid : nonemptyStr gid = true)
    (hS : getOwnedSchedule db sid u = Except.ok S)
    (hhead : (db.suggestions.filter fun s =>
      s.id == gid && s.scheduleId == sid).head? = some q) :
    deleteSuggestionAction db ⟨some u⟩ sid gid tTouch =
      (Except.ok (),
       ⟨db.schedules.map (touchRow sid tTouch),
        db.participants,
        db.suggestions.filter fun s => !(s.id == gid && s.scheduleId == sid)⟩) := by
  simp [deleteSuggestionAction, deleteSuggestion, requireUser, hsid, hgid,
    hS, hhead, touchScheduleUpdatedAt]

/-- C5: every successful participant or suggestion create, update or
delete rewrites the schedules table exactly by `touchRow scheduleId
tTouch`; `touchRow` sets `updatedAt := tTouch` on the parent row and is
the identity elsewhere, and the touch leaves the participants and
suggestions tables untouched.  When the touch time is strictly later than
the parent's stored `updatedAt`, the parent's `updatedAt` strictly
advances. -/
theorem c5_touch_only_updatedAt_strict_advance :
    (∀ (db : DB) (sid : String) (t : Nat),
      (touchScheduleUpdatedAt db sid t).participants = db.participants ∧
      (touchScheduleUpdatedAt db sid t).suggestions = db.suggestions ∧
      (touchScheduleUpdatedAt db sid t).schedules =
        db.schedules.map (touchRow sid t)) ∧
    (∀ (sid : String) (t : Nat) (s : Schedule),
      (s.id ≠ sid → touchRow sid t s = s) ∧
      (s.id = sid → touchRow sid t s = { s with updatedAt := t })) ∧
    (∀ (db : DB) (u : String) (i : UpsertParticipantInput) (nid : String)
        (tIns tTouch : Nat) (out : List Participant),
      (upsertParticipantAction db ⟨some u⟩ i nid tIns tTouch).1 =
          Except.ok out →
      (upsertParticipantAction db ⟨some u⟩ i nid tIns tTouch).2.schedules =
        db.schedules.map (touchRow i.scheduleId tTouch)) ∧
    (∀ (db : DB) (u : String) (i : UpsertSuggestionInput) (nid : String)
        (tIns tTouch : Nat) (out : List Suggestion),
      (upsertSuggestionAction db ⟨some u⟩ i nid tIns tTouch).1 =
          Except.ok out →
      (upsertSuggestionAction db ⟨some u⟩ i nid tIns tTouch).2.schedules =
        db.schedules.map (touchRow i.scheduleId tTouch)) ∧
    (∀ (db : DB) (u sid pid : String) (tTouch : Nat) (out : Unit),
      (deleteParticipantAction db ⟨some u⟩ sid pid tTouch).1 =
          Except.ok out →
      (deleteParticipantAction db ⟨some u⟩ sid pid tTouch).2.schedules =
        db.schedules.map (touchRow sid tTouch)) ∧
    (∀ (db : DB) (u sid gid : String) (tTouch : Nat) (out : Unit),
      (deleteSuggestionAction db ⟨some u⟩ sid gid tTouch).1 =
          Except.ok out →
      (deleteSuggestionAction db ⟨some u⟩ sid gid tTouch).2.schedules =
        db.schedules.map (touchRow sid tTouch)) ∧
    (∀ (db : DB) (sid : String) (t : Nat) (S : Schedule),
      S ∈ db.schedules → S.id = sid → S.updatedAt < t →
      { S with updatedAt := t } ∈ (touchScheduleUpdatedAt db sid t).schedules ∧
      S.updatedAt < ({ S with updatedAt := t } : Schedule).updatedAt) := by
  refine ⟨?_, ?_, ?_, ?_, ?_, ?_, ?_⟩
  · intro db sid t
    exact ⟨rfl, rfl, rfl⟩
  · intro sid t s
    constructor
    · intro h
      unfold touchRow
      rw [if_neg]
      simp [h]
    · intro h
      unfold touchRow
      rw [if_pos]
      simp [h]
  · intro db u i nid tIns tTouch out h
    by_cases hv : validUpsertParticipantInput i = true
    · cases hS : getOwnedSchedule db i.scheduleId u with
      | error e =>
          simp [upsertParticipantAction, upsertParticipant, requireUser, hv,
            hS] at h
      | ok S =>
          by_cases htr : idTruthy i.id = true
          · cases hhead : (db.participants.filter fun p =>
                p.id == i.id.getD "" && p.scheduleId == i.scheduleId).head? with
            | none =>
                simp [upsertParticipantAction, upsertParticipant, requireUser,
                  hv, hS, htr, hhead] at h
            | some q =>
                rw [upsertParticipant_update_eq db u i nid tIns tTouch S q hv
                  hS htr hhead]
          · have hfalse : idTruthy i.id = false := by simpa using htr
            rw [upsertParticipant_create_eq db u i nid tIns tTouch S hv hS
              hfalse]
    · have hvf : validUpsertParticipantInput i = false := by simpa using hv
      simp [upsertParticipantAction, hvf] at h
  · intro db u i nid tIns tTouch out h
    by_cases hv : validUpsertSuggestionInput i = true
    · cases hS : getOwnedSchedule db i.scheduleId u with
      | error e =>
          simp [upsertSuggestionAction, upsertSuggestion, requireUser, hv,
            hS] at h
      | ok S =>
          by_cases htr : idTruthy i.id = true
          · cases hhead : (db.suggestions.filter fun s =>
                s.id == i.id.getD "" && s.scheduleId == i.scheduleId).head? with
            | none =>
                simp [upsertSuggestionAction, upsertSuggestion, requireUser,
                  hv, hS, htr, hhead] at h
            | some q =>
                rw [upsertSuggestion_update_eq db u i nid tIns tTouch S q hv
                  hS htr hhead]
          · have hfalse : idTruthy i.id = false := by simpa using htr
            rw [upsertSuggestion_create_eq db u i nid tIns tTouch S hv hS
              hfalse]
    · have hvf : validUpsertSuggestionInput i = false := by simpa using hv
      simp [upsertSuggestionAction, hvf] at h
  · intro db u sid pid tTouch out h
    by_cases hval : (nonemptyStr sid && nonemptyStr pid) = true
    · obtain ⟨hsid, hpid⟩ := Bool.and_eq_true_iff.mp hval
      cases hS : getOwnedSchedule db sid u with
      | error e =>
          simp [deleteParticipantAction, deleteParticipant, requireUser,
            hsid, hpid, hS] at h
      | ok S =>
          cases hhead : (db.participants.filter fun p =>
              p.id == pid && p.scheduleId == sid).head? with
          | none =>
              simp [deleteParticipantAction, deleteParticipant, requireUser,
                hsid, hpid, hS, hhead] at h
          | some q =>
              rw [deleteParticipant_delete_eq db u sid pid tTouch S q hsid
                hpid hS hhead]
    · have hvf : (nonemptyStr sid && nonemptyStr pid) = false := by
        simpa using hval
      simp [deleteParticipantAction, hvf] at h
  · intro db u sid gid tTouch out h
    by_cases hval : (nonemptyStr sid && nonemptyStr gid) = true
    · obtain ⟨hsid, hgid⟩ := Bool.and_eq_true_iff.mp hval
      cases hS : getOwnedSchedule db sid u with
      | error e =>
          simp [deleteSuggestionAction, deleteSuggestion, requireUser,
            hsid, hgid, hS] at h
      | ok S =>
          cases hhead : (db.suggestions.filter fun s =>
              s.id == gid && s.scheduleId == sid).head? with
          | none =>
              simp [deleteSuggestionAction, deleteSuggestion, requireUser,
                hsid, hgid, hS, hhead] at h
          | some q =>
              rw [deleteSuggestion_delete_eq db u sid gid tTouch S q hsid
                hgid hS hhead]
    · have hvf : (nonemptyStr sid && nonemptyStr gid) = false := by
        simpa using hval
      simp [deleteSuggestionAction, hvf] at h
  · intro db sid t S hmem hid hlt
    refine ⟨?_, hlt⟩
    have : touchRow sid t S = { S with updatedAt := t } := by
      unfold touchRow
      rw [if_pos]
      simp [hid]
    rw [← this]
    exact List.mem_map_of_mem (touchRow sid t) hmem

/-- Witness for C5: concrete instances of the upsert, delete and strict
advance parts against `exDB`. -/
theorem c5_touch_only_updatedAt_strict_advance_witness :
    (upsertParticipantAction exDB ⟨some "alice"⟩
        ⟨none, "s1", "New", "UTC", none⟩ "np" 30 31).2.schedules =
      exDB.schedules.map (touchRow "s1" 31) ∧
    (deleteParticipantAction exDB ⟨some "alice"⟩ "s2" "p1" 31).2.schedules =
      exDB.schedules.map (touchRow "s2" 31) ∧
    ({ exSched1 with updatedAt := 31 } ∈
        (touchScheduleUpdatedAt exDB "s1" 31).schedules ∧
      exSched1.updatedAt <
        ({ exSched1 with updatedAt := 31 } : Schedule).updatedAt) :=
  ⟨c5_touch_only_updatedAt_strict_advance.2.2.1 exDB "alice"
      ⟨none, "s1", "New", "UTC", none⟩ "np" 30 31
      [⟨"np", "s1", "New", "UTC", none, 30⟩] (by decide),
    c5_touch_only_updatedAt_strict_advance.2.2.2.2.1 exDB "alice" "s2" "p1"
      31 () (by decide),
    c5_touch_only_updatedAt_strict_advance.2.2.2.2.2.2 exDB "s1" 31 exSched1
      (by decide) rfl (by decide)⟩

/-- C6: an `upsertSuggestion` input with `suggestedEndUtc ≤
suggestedStartUtc`, or with a score that is present and non-integral or
outside `[0, 100]`, is rejected by the input schema with a validation
error before the handler runs, and the store is returned unchanged. -/
theorem c6_suggestion_validation_rejects_before_store
    (db : DB) (ctx : Ctx) (i : UpsertSuggestionInput) (nid : String)
    (tIns tTouch : Nat)
    (hbad : i.suggestedEndUtc ≤ i.suggestedStartUtc ∨
      (∃ s : ℚ, i.score = some s ∧ (s.den ≠ 1 ∨ s < 0 ∨ 100 < s))) :
    upsertSuggestionAction db ctx i nid tIns tTouch =
      (Except.error ⟨ErrCode.BAD_REQUEST,
        "Failed to validate: invalid input."⟩, db) := by
  have hvf : validUpsertSuggestionInput i = false := by
    rcases hbad with hle | ⟨s, hs, hsc⟩
    · have hdec : decide (i.suggestedStartUtc < i.suggestedEndUtc) = false :=
        decide_eq_false (Nat.not_lt.mpr hle)
      unfold validUpsertSuggestionInput
      simp [hdec]
    · unfold validUpsertSuggestionInput validScore
      rw [hs]
      rcases hsc with h1 | h2 | h3
      · simp [h1]
      · have : decide (0 ≤ s) = false := decide_eq_false (not_le.mpr h2)
        simp [this]
      · have : decide (s ≤ 100) = false := decide_eq_false (not_le.mpr h3)
        simp [this]
  simp [upsertSuggestionAction, hvf]

/-- Witness for C6: end before start; score 101; score 1/2. -/
theorem c6_suggestion_validation_rejects_before_store_witness :
    upsertSuggestionAction exDB ⟨some "alice"⟩
        ⟨none, "s1", 9, 5, none, none, none⟩ "n1" 1 2 =
      (Except.error ⟨ErrCode.BAD_REQUEST,
        "Failed to validate: invalid input."⟩, exDB) ∧
    upsertSuggestionAction exDB ⟨some "alice"⟩
        ⟨none, "s1", 5, 9, none, some 101, none⟩ "n1" 1 2 =
      (Except.error ⟨ErrCode.BAD_REQUEST,
        "Failed to validate: invalid input."⟩, exDB) ∧
    upsertSuggestionAction exDB ⟨some "alice"⟩
        ⟨none, "s1", 5, 9, none, some (1 / 2 : ℚ), none⟩ "n1" 1 2 =
      (Except.error ⟨ErrCode.BAD_REQUEST,
        "Failed to validate: invalid input."⟩, exDB) :=
  ⟨c6_suggestion_validation_rejects_before_store exDB ⟨some "alice"⟩
      ⟨none, "s1", 9, 5, none, none, none⟩ "n1" 1 2 (Or.inl (by decide)),
    c6_suggestion_validation_rejects_before_store exDB ⟨some "alice"⟩
      ⟨none, "s1", 5, 9, none, some 101, none⟩ "n1" 1 2
      (Or.inr ⟨101, rfl, Or.inr (Or.inr (by norm_num))⟩),
    c6_suggestion_validation_rejects_before_store exDB ⟨some "alice"⟩
      ⟨none, "s1", 5, 9, none, some (1 / 2 : ℚ), none⟩ "n1" 1 2
      (Or.inr ⟨1 / 2, rfl, Or.inl (by norm_num [Rat.den])⟩)⟩

/-- C7: `listMySchedules` reads only — the store is unchanged — and
returns the caller's schedules after skipping `(page−1)×pageSize` and
taking at most `pageSize`, along with the owner-scoped total and the
echoed page/pageSize; every returned item is owned by the caller, at most
`pageSize` items are returned, and with 25 owned schedules, `page = 2`,
`pageSize = 10`, exactly 10 items are returned. -/
theorem c7_list_pagination
    (db : DB) (u : String) (page pageSize : Nat)
    (hval : validListInput page pageSize = true) :
    (listMySchedulesAction db ⟨some u⟩ page pageSize).2 = db ∧
    (listMySchedulesAction db ⟨some u⟩ page pageSize).1 =
      Except.ok
        ⟨((db.schedules.filter fun s => s.ownerUserId == u).drop
            ((page - 1) * pageSize)).take pageSize,
          (db.schedules.filter fun s => s.ownerUserId == u).length,
          page, pageSize⟩ ∧
    (∀ s ∈ ((db.schedules.filter fun s => s.ownerUserId == u).drop
        ((page - 1) * pageSize)).take pageSize, s.ownerUserId = u) ∧
    (((db.schedules.filter fun s => s.ownerUserId == u).drop
        ((page - 1) * pageSize)).take pageSize).length ≤ pageSize ∧
    ((db.schedules.filter fun s => s.ownerUserId == u).length = 25 →
      page = 2 → pageSize = 10 →
      (((db.schedules.filter fun s => s.ownerUserId == u).drop
        ((page - 1) * pageSize)).take pageSize).length = 10) := by
  refine ⟨?_, ?_, ?_, ?_, ?_⟩
  · simp [listMySchedulesAction, listMySchedules, requireUser, hval]
  · simp [listMySchedulesAction, listMySchedules, requireUser, hval]
  · intro s hs
    have h1 : s ∈ (db.schedules.filter fun s => s.ownerUserId == u).drop
        ((page - 1) * pageSize) := List.mem_of_mem_take hs
    have h2 : s ∈ db.schedules.filter fun s => s.ownerUserId == u :=
      List.mem_of_mem_drop h1
    have := (List.mem_filter.mp h2).2
    simpa [beq_iff_eq] using this
  · exact List.length_take_le pageSize _
  · intro h25 hp hps
    subst hp
    subst hps
    simp [List.length_take, List.length_drop, h25]

/-- Witness for C7: 25 schedules owned by `alice` in `exDB25`, page 2,
pageSize 10. -/
theorem c7_list_pagination_witness :
    (exDB25.schedules.filter fun s => s.ownerUserId == "alice").length = 25 ∧
    (listMySchedulesAction exDB25 ⟨some "alice"⟩ 2 10).2 = exDB25 ∧
    (listMySchedulesAction exDB25 ⟨some "alice"⟩ 2 10).1 =
      Except.ok
        ⟨((exDB25.schedules.filter fun s => s.ownerUserId == "alice").drop
            ((2 - 1) * 10)).take 10,
          (exDB25.schedules.filter fun s => s.ownerUserId == "alice").length,
          2, 10⟩ ∧
    (∀ s ∈ ((exDB25.schedules.filter fun s => s.ownerUserId == "alice").drop
        ((2 - 1) * 10)).take 10, s.ownerUserId = "alice") ∧
    (((exDB25.schedules.filter fun s => s.ownerUserId == "alice").drop
        ((2 - 1) * 10)).take 10).length ≤ 10 ∧
    ((exDB25.schedules.filter fun s => s.ownerUserId == "alice").length = 25 →
      2 = 2 → 10 = 10 →
      (((exDB25.schedules.filter fun s => s.ownerUserId == "alice").drop
        ((2 - 1) * 10)).take 10).length = 10) :=
  ⟨by decide, c7_list_pagination exDB25 "alice" 2 10 (by decide)⟩

/-- Normal form of the conditional `updateData` application: `updatedAt`
always refreshed, a provided field takes the supplied value, an omitted
field keeps the stored one; `id`, `ownerUserId`, `createdAt` untouched. -/
theorem applyScheduleUpdate_eq (i : UpdateScheduleInput) (now : Nat)
    (s : Schedule) :
    applyScheduleUpdate i now s =
      { s with
        updatedAt := now
        name := i.name.getD s.name
        description := setOrKeep i.description s.description
        baseTimeZone := setOrKeep i.baseTimeZone s.baseTimeZone
        durationMinutes := setOrKeep i.durationMinutes s.durationMinutes } := by
  cases hn : i.name <;> cases hd : i.description <;> cases hb : i.baseTimeZone
    <;> cases hm : i.durationMinutes <;>
    simp [applyScheduleUpdate, setOrKeep, hn, hd, hb, hm]

theorem getOwnedSchedule_ok_head (db : DB) (sid uid : String) (S : Schedule)
    (h : getOwnedSchedule db sid uid = Except.ok S) :
    (db.schedules.filter fun s =>
      s.id == sid && s.ownerUserId == uid).head? = some S := by
  unfold getOwnedSchedule at h
  cases hh : (db.schedules.filter fun s =>
      s.id == sid && s.ownerUserId == uid).head? with
  | none => rw [hh] at h; cases h
  | some s => rw [hh] at h; cases h; rfl

/-- C8: a successful `updateSchedule` rewrites exactly the rows matching
id+owner with `applyScheduleUpdate` (other rows and tables unchanged);
the updated row takes the supplied values on supplied fields, keeps the
stored values on omitted fields, gets `updatedAt := now`, and keeps `id`,
`ownerUserId` and `createdAt`; the returned record is the stored row
re-read after the write. -/
theorem c8_update_applies_only_provided_fields
    (db : DB) (u : String) (i : UpdateScheduleInput) (now : Nat)
    (S : Schedule)
    (hv : validUpdateScheduleInput i = true)
    (hS : getOwnedSchedule db i.id u = Except.ok S) :
    updateScheduleAction db ⟨some u⟩ i now =
      (Except.ok (some (applyScheduleUpdate i now S)),
       ⟨db.schedules.map fun s =>
          if s.id == i.id && s.ownerUserId == u then
            applyScheduleUpdate i now s
          else s,
        db.participants, db.suggestions⟩) ∧
    (applyScheduleUpdate i now S).id = S.id ∧
    (applyScheduleUpdate i now S).ownerUserId = S.ownerUserId ∧
    (applyScheduleUpdate i now S).createdAt = S.createdAt ∧
    (applyScheduleUpdate i now S).updatedAt = now ∧
    (applyScheduleUpdate i now S).name = i.name.getD S.name ∧
    (applyScheduleUpdate i now S).description =
      setOrKeep i.description S.description ∧
    (applyScheduleUpdate i now S).baseTimeZone =
      setOrKeep i.baseTimeZone S.baseTimeZone ∧
    (applyScheduleUpdate i now S).durationMinutes =
      setOrKeep i.durationMinutes S.durationMinutes ∧
    applyScheduleUpdate i now S ∈
      (updateScheduleAction db ⟨some u⟩ i now).2.schedules := by
  have hhead := getOwnedSchedule_ok_head db i.id u S hS
  obtain ⟨hmem, hid, hown⟩ := getOwnedSchedule_ok_mem db i.id u S hS
  have hpredS : (S.id == i.id && S.ownerUserId == u) = true := by
    simp [hid, hown]
  have hpg : ∀ s : Schedule,
      ((if s.id == i.id && s.ownerUserId == u then
          applyScheduleUpdate i now s else s).id == i.id &&
       (if s.id == i.id && s.ownerUserId == u then
          applyScheduleUpdate i now s else s).ownerUserId == u) =
      (s.id == i.id && s.ownerUserId == u) := by
    intro s
    by_cases h : (s.id == i.id && s.ownerUserId == u) = true
    · simp [h, applyScheduleUpdate_eq]
    · have hf : (s.id == i.id && s.ownerUserId == u) = false := by
        simpa using h
      simp [hf]
  have hfilter :
      ((db.schedules.map fun s =>
          if s.id == i.id && s.ownerUserId == u then
            applyScheduleUpdate i now s else s).filter fun s =>
        s.id == i.id && s.ownerUserId == u) =
      (db.schedules.filter fun s => s.id == i.id && s.ownerUserId == u).map
        fun s =>
          if s.id == i.id && s.ownerUserId == u then
            applyScheduleUpdate i now s else s := by
    rw [List.filter_map]
    exact congrArg _ (List.filter_congr fun s _ => hpg s)
  have hfhead :
      ((db.schedules.map fun s =>
          if s.id == i.id && s.ownerUserId == u then
            applyScheduleUpdate i now s else s).filter fun s =>
        s.id == i.id && s.ownerUserId == u).head? =
      some (applyScheduleUpdate i now S) := by
    rw [hfilter, List.head?_map, hhead]
    simp [hid, hown]
  have hact : updateScheduleAction db ⟨some u⟩ i now =
      (Except.ok (some (applyScheduleUpdate i now S)),
       ⟨db.schedules.map fun s =>
          if s.id == i.id && s.ownerUserId == u then
            applyScheduleUpdate i now s
          else s,
        db.participants, db.suggestions⟩) := by
    have hwrap : updateScheduleAction db ⟨some u⟩ i now =
        updateSchedule db ⟨some u⟩ i now := by
      simp [updateScheduleAction, hv]
    rw [hwrap]
    simp only [updateSchedule, requireUser, hS]
    rw [hfhead]
  refine ⟨hact, ?_, ?_, ?_, ?_, ?_, ?_, ?_, ?_, ?_⟩
  · simp [applyScheduleUpdate_eq]
  · simp [applyScheduleUpdate_eq]
  · simp [applyScheduleUpdate_eq]
  · simp [applyScheduleUpdate_eq]
  · simp [applyScheduleUpdate_eq]
  · simp [applyScheduleUpdate_eq]
  · simp [applyScheduleUpdate_eq]
  · simp [applyScheduleUpdate_eq]
  · rw [hact]
    have hgS : (if S.id == i.id && S.ownerUserId == u then
        applyScheduleUpdate i now S else S) = applyScheduleUpdate i now S :=
      if_pos hpredS
    rw [← hgS]
    exact List.mem_map_of_mem _ hmem

/-- Witness for C8: `alice` sets only `durationMinutes := 30` on `"s1"`. -/
theorem c8_update_applies_only_provided_fields_witness :
    updateScheduleAction exDB ⟨some "alice"⟩ ⟨"s1", none, none, none, some 30⟩
        50 =
      (Except.ok (some (applyScheduleUpdate
          ⟨"s1", none, none, none, some 30⟩ 50 exSched1)),
       ⟨exDB.schedules.map fun s =>
          if s.id == "s1" && s.ownerUserId == "alice" then
            applyScheduleUpdate ⟨"s1", none, none, none, some 30⟩ 50 s
          else s,
        exDB.participants, exDB.suggestions⟩) ∧
    (applyScheduleUpdate ⟨"s1", none, none, none, some 30⟩ 50 exSched1).id =
      exSched1.id ∧
    (applyScheduleUpdate ⟨"s1", none, none, none, some 30⟩ 50
      exSched1).ownerUserId = exSched1.ownerUserId ∧
    (applyScheduleUpdate ⟨"s1", none, none, none, some 30⟩ 50
      exSched1).createdAt = exSched1.createdAt ∧
    (applyScheduleUpdate ⟨"s1", none, none, none, some 30⟩ 50
      exSched1).updatedAt = 50 ∧
    (applyScheduleUpdate ⟨"s1", none, none, none, some 30⟩ 50
      exSched1).name = Option.getD none exSched1.name ∧
    (applyScheduleUpdate ⟨"s1", none, none, none, some 30⟩ 50
      exSched1).description = setOrKeep none exSched1.description ∧
    (applyScheduleUpdate ⟨"s1", none, none, none, some 30⟩ 50
      exSched1).baseTimeZone = setOrKeep none exSched1.baseTimeZone ∧
    (applyScheduleUpdate ⟨"s1", none, none, none, some 30⟩ 50
      exSched1).durationMinutes = setOrKeep (some 30) exSched1.durationMinutes ∧
    applyScheduleUpdate ⟨"s1", none, none, none, some 30⟩ 50 exSched1 ∈
      (updateScheduleAction exDB ⟨some "alice"⟩
        ⟨"s1", none, none, none, some 30⟩ 50).2.schedules :=
  c8_update_applies_only_provided_fields exDB "alice"
    ⟨"s1", none, none, none, some 30⟩ 50 exSched1 (by decide) (by rfl)

/-- C9: an empty-string id is falsy in `if (input.id)`, so both upserts
treat it as absent: the call passes the input schema (which puts no lower
bound on the id), succeeds, and inserts a new row carrying the freshly
generated id — it neither updates nor fails `NOT_FOUND`. -/
theorem c9_empty_string_id_treated_as_absent
    (db : DB) (u : String)
    (p : UpsertParticipantInput) (hpv : validUpsertParticipantInput p = true)
    (hpid : p.id = some "")
    (Sp : Schedule) (hpS : getOwnedSchedule db p.scheduleId u = Except.ok Sp)
    (g : UpsertSuggestionInput) (hgv : validUpsertSuggestionInput g = true)
    (hgid : g.id = some "")
    (Sg : Schedule) (hgS : getOwnedSchedule db g.scheduleId u = Except.ok Sg)
    (nidp nidg : String) (tIns tTouch : Nat) :
    (∀ (i : UpsertParticipantInput) (id' : Option String),
      validUpsertParticipantInput
        ⟨id', i.scheduleId, i.name, i.timeZone, i.availabilityJson⟩ =
      validUpsertParticipantInput i) ∧
    upsertParticipantAction db ⟨some u⟩ p nidp tIns tTouch =
      (Except.ok ((db.participants ++ [newParticipantRow p nidp tIns]).filter
        fun q => q.scheduleId == p.scheduleId),
       ⟨db.schedules.map (touchRow p.scheduleId tTouch),
        db.participants ++ [newParticipantRow p nidp tIns],
        db.suggestions⟩) ∧
    (newParticipantRow p nidp tIns).id = nidp ∧
    (∀ (i : UpsertSuggestionInput) (id' : Option String),
      validUpsertSuggestionInput
        ⟨id', i.scheduleId, i.suggestedStartUtc, i.suggestedEndUtc,
          i.participantsJson, i.score, i.notes⟩ =
      validUpsertSuggestionInput i) ∧
    upsertSuggestionAction db ⟨some u⟩ g nidg tIns tTouch =
      (Except.ok ((db.suggestions ++ [newSuggestionRow g nidg tIns]).filter
        fun q => q.scheduleId == g.scheduleId),
       ⟨db.schedules.map (touchRow g.scheduleId tTouch),
        db.participants,
        db.suggestions ++ [newSuggestionRow g nidg tIns]⟩) ∧
    (newSuggestionRow g nidg tIns).id = nidg := by
  have hpf : idTruthy p.id = false := by rw [hpid]; rfl
  have hgf : idTruthy g.id = false := by rw [hgid]; rfl
  exact ⟨fun i id' => rfl,
    upsertParticipant_create_eq db u p nidp tIns tTouch Sp hpv hpS hpf, rfl,
    fun i id' => rfl,
    upsertSuggestion_create_eq db u g nidg tIns tTouch Sg hgv hgS hgf, rfl⟩

/-- Witness for C9: upserts with `id = some ""` against `exDB`. -/
theorem c9_empty_string_id_treated_as_absent_witness :
    (∀ (i : UpsertParticipantInput) (id' : Option String),
      validUpsertParticipantInput
        ⟨id', i.scheduleId, i.name, i.timeZone, i.availabilityJson⟩ =
      validUpsertParticipantInput i) ∧
    upsertParticipantAction exDB ⟨some "alice"⟩
        ⟨some "", "s1", "Newbie", "UTC", none⟩ "np" 30 31 =
      (Except.ok ((exDB.participants ++
          [newParticipantRow ⟨some "", "s1", "Newbie", "UTC", none⟩ "np"
            30]).filter fun q => q.scheduleId == "s1"),
       ⟨exDB.schedules.map (touchRow "s1" 31),
        exDB.participants ++
          [newParticipantRow ⟨some "", "s1", "Newbie", "UTC", none⟩ "np" 30],
        exDB.suggestions⟩) ∧
    (newParticipantRow ⟨some "", "s1", "Newbie", "UTC", none⟩ "np" 30).id =
      "np" ∧
    (∀ (i : UpsertSuggestionInput) (id' : Option String),
      validUpsertSuggestionInput
        ⟨id', i.scheduleId, i.suggestedStartUtc, i.suggestedEndUtc,
          i.participantsJson, i.score, i.notes⟩ =
      validUpsertSuggestionInput i) ∧
    upsertSuggestionAction exDB ⟨some "alice"⟩
        ⟨some "", "s1", 5, 9, none, none, none⟩ "ng" 30 31 =
      (Except.ok ((exDB.suggestions ++
          [newSuggestionRow ⟨some "", "s1", 5, 9, none, none, none⟩ "ng"
            30]).filter fun q => q.scheduleId == "s1"),
       ⟨exDB.schedules.map (touchRow "s1" 31),
        exDB.participants,
        exDB.suggestions ++
          [newSuggestionRow ⟨some "", "s1", 5, 9, none, none, none⟩ "ng" 30]⟩) ∧
    (newSuggestionRow ⟨some "", "s1", 5, 9, none, none, none⟩ "ng" 30).id =
      "ng" :=
  c9_empty_string_id_treated_as_absent exDB "alice"
    ⟨some "", "s1", "Newbie", "UTC", none⟩ (by decide) rfl exSched1 (by rfl)
    ⟨some "", "s1", 5, 9, none, none, none⟩ (by decide) rfl exSched1 (by rfl)
    "np" "ng" 30 31

/-- Counterexample to C10 as stated: drizzle-orm drops `undefined`
entries from an `update().set()` clause, so an optional field omitted
from the upsert input *preserves* the stored value instead of clearing
it.  Concretely: participant `"p1"` stores `availabilityJson = some
"old"`; `alice` upserts it with `availabilityJson` omitted, the call
succeeds, and the stored value is still `some "old"`, not cleared.  The
suggestion fields behave the same (stored `score = some 50` survives an
upsert that omits `score`). -/
theorem c10_omitted_field_counterexample :
    exPart.availabilityJson = some "old" ∧
    (upsertParticipantAction exDB ⟨some "alice"⟩
        ⟨some "p1", "s2", "K2", "UTC", none⟩ "n1" 20 21).1 =
      Except.ok [⟨"p1", "s2", "K2", "UTC", some "old", 12⟩] ∧
    ((upsertParticipantAction exDB ⟨some "alice"⟩
        ⟨some "p1", "s2", "K2", "UTC", none⟩ "n1" 20 21).2.participants.map
      Participant.availabilityJson) = [some "old"] ∧
    exSugg.score = some 50 ∧
    ((upsertSuggestionAction exDB ⟨some "alice"⟩
        ⟨some "g1", "s2", 300, 400, none, none, none⟩ "n2" 20
        21).2.suggestions.map Suggestion.score) = [some 50] := by
  exact ⟨rfl, by decide, by decide, rfl, by decide⟩

/-- C10 (amended): on a successful upsert with a valid owned id, the
always-present mutable fields take the supplied values, and each optional
field takes the supplied value when supplied but *keeps the previously
stored value* when omitted (the update drops `undefined` entries);
identity fields are untouched. -/
theorem c10_update_supplied_set_omitted_preserved
    (db : DB) (u : String)
    (p : UpsertParticipantInput) (hpv : validUpsertParticipantInput p = true)
    (Sp : Schedule) (hpS : getOwnedSchedule db p.scheduleId u = Except.ok Sp)
    (hptr : idTruthy p.id = true) (qp : Participant)
    (hphead : (db.participants.filter fun r =>
      r.id == p.id.getD "" && r.scheduleId == p.scheduleId).head? = some qp)
    (g : UpsertSuggestionInput) (hgv : validUpsertSuggestionInput g = true)
    (Sg : Schedule) (hgS : getOwnedSchedule db g.scheduleId u = Except.ok Sg)
    (hgtr : idTruthy g.id = true) (qg : Suggestion)
    (hghead : (db.suggestions.filter fun r =>
      r.id == g.id.getD "" && r.scheduleId == g.scheduleId).head? = some qg)
    (nid : String) (tIns tTouch : Nat) :
    (upsertParticipantAction db ⟨some u⟩ p nid tIns tTouch).2.participants =
      db.participants.map (fun r =>
        if r.id == p.id.getD "" && r.scheduleId == p.scheduleId then
          participantUpdateRow p r
        else r) ∧
    (∀ r : Participant,
      (participantUpdateRow p r).id = r.id ∧
      (participantUpdateRow p r).scheduleId = r.scheduleId ∧
      (participantUpdateRow p r).createdAt = r.createdAt ∧
      (participantUpdateRow p r).name = p.name ∧
      (participantUpdateRow p r).timeZone = p.timeZone ∧
      (p.availabilityJson = none →
        (participantUpdateRow p r).availabilityJson = r.availabilityJson) ∧
      (∀ v, p.availabilityJson = some v →
        (participantUpdateRow p r).availabilityJson = some v)) ∧
    (upsertSuggestionAction db ⟨some u⟩ g nid tIns tTouch).2.suggestions =
      db.suggestions.map (fun r =>
        if r.id == g.id.getD "" && r.scheduleId == g.scheduleId then
          suggestionUpdateRow g r
        else r) ∧
    (∀ r : Suggestion,
      (suggestionUpdateRow g r).id = r.id ∧
      (suggestionUpdateRow g r).scheduleId = r.scheduleId ∧
      (suggestionUpdateRow g r).createdAt = r.createdAt ∧
      (suggestionUpdateRow g r).suggestedStartUtc = g.suggestedStartUtc ∧
      (suggestionUpdateRow g r).suggestedEndUtc = g.suggestedEndUtc ∧
      (g.participantsJson = none →
        (suggestionUpdateRow g r).participantsJson = r.participantsJson) ∧
      (∀ v, g.participantsJson = some v →
        (suggestionUpdateRow g r).participantsJson = some v) ∧
      (g.score = none → (suggestionUpdateRow g r).score = r.score) ∧
      (∀ v, g.score = some v → (suggestionUpdateRow g r).score = some v) ∧
      (g.notes = none → (suggestionUpdateRow g r).notes = r.notes) ∧
      (∀ v, g.notes = some v → (suggestionUpdateRow g r).notes = some v)) := by
  refine ⟨?_, ?_, ?_, ?_⟩
  · rw [upsertParticipant_update_eq db u p nid tIns tTouch Sp qp hpv hpS
      hptr hphead]
  · intro r
    refine ⟨rfl, rfl, rfl, rfl, rfl, ?_, ?_⟩
    · intro h
      simp [participantUpdateRow, setOrKeep, h]
    · intro v h
      simp [participantUpdateRow, setOrKeep, h]
  · rw [upsertSuggestion_update_eq db u g nid tIns tTouch Sg qg hgv hgS
      hgtr hghead]
  · intro r
    refine ⟨rfl, rfl, rfl, rfl, rfl, ?_, ?_, ?_, ?_, ?_, ?_⟩ <;>
      first
        | (intro h; simp [suggestionUpdateRow, setOrKeep, h])
        | (intro v h; simp [suggestionUpdateRow, setOrKeep, h])

/-- Witness for the amended C10: updates of `"p1"` and `"g1"` under
`"s2"` in `exDB`. -/
theorem c10_update_supplied_set_omitted_preserved_witness :
    (upsertParticipantAction exDB ⟨some "alice"⟩
        ⟨some "p1", "s2", "K2", "UTC", none⟩ "n1" 20 21).2.participants =
      exDB.participants.map (fun r =>
        if r.id == "p1" && r.scheduleId == "s2" then
          participantUpdateRow ⟨some "p1", "s2", "K2", "UTC", none⟩ r
        else r) ∧
    (∀ r : Participant,
      (participantUpdateRow ⟨some "p1", "s2", "K2", "UTC", none⟩ r).id =
        r.id ∧
      (participantUpdateRow ⟨some "p1", "s2", "K2", "UTC", none⟩
        r).scheduleId = r.scheduleId ∧
      (participantUpdateRow ⟨some "p1", "s2", "K2", "UTC", none⟩
        r).createdAt = r.createdAt ∧
      (participantUpdateRow ⟨some "p1", "s2", "K2", "UTC", none⟩ r).name =
        "K2" ∧
      (participantUpdateRow ⟨some "p1", "s2", "K2", "UTC", none⟩
        r).timeZone = "UTC" ∧
      ((none : Option String) = none →
        (participantUpdateRow ⟨some "p1", "s2", "K2", "UTC", none⟩
          r).availabilityJson = r.availabilityJson) ∧
      (∀ v, (none : Option String) = some v →
        (participantUpdateRow ⟨some "p1", "s2", "K2", "UTC", none⟩
          r).availabilityJson = some v)) ∧
    (upsertSuggestionAction exDB ⟨some "alice"⟩
        ⟨some "g1", "s2", 300, 400, none, none, some "note"⟩ "n2" 20
        21).2.suggestions =
      exDB.suggestions.map (fun r =>
        if r.id == "g1" && r.scheduleId == "s2" then
          suggestionUpdateRow ⟨some "g1", "s2", 300, 400, none, none,
            some "note"⟩ r
        else r) ∧
    (∀ r : Suggestion,
      (suggestionUpdateRow ⟨some "g1", "s2", 300, 400, none, none,
        some "note"⟩ r).id = r.id ∧
      (suggestionUpdateRow ⟨some "g1", "s2", 300, 400, none, none,
        some "note"⟩ r).scheduleId = r.scheduleId ∧
      (suggestionUpdateRow ⟨some "g1", "s2", 300, 400, none, none,
        some "note"⟩ r).createdAt = r.createdAt ∧
      (suggestionUpdateRow ⟨some "g1", "s2", 300, 400, none, none,
        some "note"⟩ r).suggestedStartUtc = 300 ∧
      (suggestionUpdateRow ⟨some "g1", "s2", 300, 400, none, none,
        some "note"⟩ r).suggestedEndUtc = 400 ∧
      ((none : Option String) = none →
        (suggestionUpdateRow ⟨some "g1", "s2", 300, 400, none, none,
          some "note"⟩ r).participantsJson = r.participantsJson) ∧
      (∀ v, (none : Option String) = some v →
        (suggestionUpdateRow ⟨some "g1", "s2", 300, 400, none, none,
          some "note"⟩ r).participantsJson = some v) ∧
      ((none : Option ℚ) = none →
        (suggestionUpdateRow ⟨some "g1", "s2", 300, 400, none, none,
          some "note"⟩ r).score = r.score) ∧
      (∀ v, (none : Option ℚ) = some v →
        (suggestionUpdateRow ⟨some "g1", "s2", 300, 400, none, none,
          some "note"⟩ r).score = some v) ∧
      ((some "note" : Option String) = none →
        (suggestionUpdateRow ⟨some "g1", "s2", 300, 400, none, none,
          some "note"⟩ r).notes = r.notes) ∧
      (∀ v, (some "note" : Option String) = some v →
        (suggestionUpdateRow ⟨some "g1", "s2", 300, 400, none, none,
          some "note"⟩ r).notes = some v)) :=
  c10_update_supplied_set_omitted_preserved exDB "alice"
    ⟨some "p1", "s2", "K2", "UTC", none⟩ (by decide) exSched2 (by rfl)
    (by decide) exPart (by rfl)
    ⟨some "g1", "s2", 300, 400, none, none, some "note"⟩ (by decide)
    exSched2 (by rfl) (by decide) exSugg (by rfl)
    "n1" 20 21

end TZScheduler
